import Mathlib

/-!
Shallow embedding of `cybozu-schedule-scraping` (files
`src/cybozu_schedule_scraping/__init__.py` and
`src/cyboz_schedule_scraping/__main__.py`).

The Python code is a linear scraping pipeline.  We embed the pure
computational core: string/time parsing, the option matcher used by
`retrieve_division_code` and `login`, the HTTP status check of
`call_http_method`, and the calendar extraction of
`retrieve_monthly_schedules`.  Fallible Python code (code that can raise)
is modelled with `Except PyError`.

DOM values are modelled at the level the functions consume them:
an `option` element is its visible text plus an optional `value`
attribute; a day cell (`td.eventcell`) is the optional text of its
`span.date` child plus the list of its `div.eventLink` children; an
event link is the optional text of its `span.eventDateTime` child plus
the optional `a.event` child, which in turn carries an optional `title`
attribute.  `Option` is `none` exactly when `select_one` returns `None`
in Python, resp. when the HTML attribute is missing.
-/

deriving instance DecidableEq for Except

namespace Cybozu

/-- Python exception outcomes that the embedded code can produce.
`cbScraping msg` models `CBScrapingException(msg)` — the only exception
class the repository defines; all other constructors model built-in
Python exceptions escaping from library calls. -/
inductive PyError where
  /-- Models `CBScrapingException` with its message. -/
  | cbScraping (msg : String)
  /-- Models `ValueError`, e.g. from `int(...)` on a non-numeric string or from
  `datetime.time(...)` on an out-of-range hour/minute. -/
  | valueError
  /-- Models `KeyError`, e.g. from `tag["title"]` when the attribute is missing. -/
  | keyError
  /-- Models `AttributeError`, e.g. from `None.text` when `select_one` found nothing. -/
  | attributeError
  /-- Models `IndexError`, e.g. from `lst[1]` on a one-element list. -/
  | indexError
deriving DecidableEq, Repr

/-- Whether an error is the repository's own `CBScrapingException` class
(the class realising the spec's error taxonomy); built-in exceptions
like `KeyError`/`AttributeError` are outside it. -/
def PyError.isCBScraping : PyError → Bool
  | .cbScraping _ => true
  | _ => false

/-- Characters removed by Python `str.strip()` with no argument.  (Python
also strips some rarer Unicode space characters; the site data and every
claim only involve ASCII whitespace, where this matches.) -/
def isPySpace (c : Char) : Bool :=
  c = ' ' ∨ c = '\t' ∨ c = '\n' ∨ c = '\r' ∨ c = '\x0b' ∨ c = '\x0c'

/-- Python `str.strip()` on the character list: drop leading and trailing whitespace. -/
def pyStripList (cs : List Char) : List Char :=
  ((cs.dropWhile isPySpace).reverse.dropWhile isPySpace).reverse

/-- Python `text.strip()`. -/
def pyStrip (s : String) : String :=
  String.mk (pyStripList s.data)

/-- Split a character list at the first occurrence of `sep`:
`some (before, after)` if `sep` occurs, `none` otherwise. -/
def splitFirstChar (sep : Char) : List Char → Option (List Char × List Char)
  | [] => none
  | c :: cs =>
    if c = sep then some ([], cs)
    else (splitFirstChar sep cs).map (fun p => (c :: p.1, p.2))

/-- Python `s.split(sep, 1)` for a one-character separator: a list of one
element when `sep` does not occur in `s`, of two when it does. -/
def pySplit1 (s : String) (sep : Char) : List String :=
  match splitFirstChar sep s.data with
  | none => [s]
  | some (pre, post) => [String.mk pre, String.mk post]

/-- Python `s.removesuffix(suffix)`: drop `suffix` when `s` ends with it,
otherwise return `s` unchanged. -/
def pyRemovesuffix (s suffix : String) : String :=
  if suffix.data <:+ s.data then String.mk (s.data.take (s.data.length - suffix.data.length))
  else s

/-- Value of a non-empty all-digit character list, `none` otherwise. -/
def digitsVal (cs : List Char) : Option Nat :=
  if cs ≠ [] ∧ cs.all Char.isDigit then
    some (cs.foldl (fun acc c => acc * 10 + (c.toNat - 48)) 0)
  else none

/-- Python `int(s)` on a string: strips surrounding whitespace, accepts an
optional single sign followed by decimal digits, raises `ValueError`
otherwise.  (Python additionally accepts underscore digit grouping and
non-ASCII decimal digits; no site datum or claim exercises those.) -/
def pyInt (s : String) : Except PyError Int :=
  match pyStripList s.data with
  | '-' :: rest =>
    match digitsVal rest with
    | some n => .ok (-(n : Int))
    | none => .error .valueError
  | '+' :: rest =>
    match digitsVal rest with
    | some n => .ok (n : Int)
    | none => .error .valueError
  | cs =>
    match digitsVal cs with
    | some n => .ok (n : Int)
    | none => .error .valueError

/-- A `datetime.time` value as the repository uses it: an hour and a
minute, already validated by the constructor. -/
structure Time where
  hour : Int
  minute : Int
deriving DecidableEq, Repr

/-- Constructor `datetime.time(hour=h, minute=m)`: raises `ValueError` unless
`0 ≤ h ≤ 23` and `0 ≤ m ≤ 59`. -/
def mkTime (h m : Int) : Except PyError Time :=
  if 0 ≤ h ∧ h ≤ 23 then
    if 0 ≤ m ∧ m ≤ 59 then .ok ⟨h, m⟩
    else .error .valueError
  else .error .valueError

/-- Function `_str_to_time` (`__init__.py` lines 70–85): strip the text; empty text
or text without a `:` yields `None`; otherwise both pieces go through
`int(...)` and `time(...)`, which can raise `ValueError`. -/
def str_to_time (text : String) : Except PyError (Option Time) :=
  let text := pyStrip text
  if text = "" then .ok none
  else
    match pySplit1 text ':' with
    | [h, m] => do
      let hi ← pyInt h
      let mi ← pyInt m
      let t ← mkTime hi mi
      .ok (some t)
    | _ => .ok none

/-- Decimal rendering of `n` left-padded with zeros to width `w`. -/
def padNat (w : Nat) (n : Nat) : String :=
  let s := toString n
  if s.length < w then String.mk (List.replicate (w - s.length) '0') ++ s else s

/-- Python `f"{n:0<w>}"` formatting of an integer: zero-padded to total
width `w`, the sign counting toward the width. -/
def pyFormat0 (w : Nat) (n : Int) : String :=
  if n < 0 then "-" ++ padNat (w - 1) n.natAbs else padNat w n.natAbs

/-- Function `_time_to_str` (`__init__.py` lines 88–97): `time.strftime("%H:%M")`
when the value is present (`datetime.time` is always truthy), `""` for `None`. -/
def time_to_str : Option Time → String
  | none => ""
  | some t => pyFormat0 2 t.hour ++ ":" ++ pyFormat0 2 t.minute

/-- Class `YearMonth` (`__init__.py` lines 32–67): a year and a month, validated
at construction. -/
structure YearMonth where
  year : Int
  month : Int
deriving DecidableEq, Repr

/-- Method `YearMonth.__init__` (lines 40–52): raises `CBScrapingException`
when `year < 1900 or 2100 < year`, then when `month < 1 or 12 < month`;
otherwise stores both. -/
def YearMonth.init (year month : Int) : Except PyError YearMonth :=
  if year < 1900 ∨ 2100 < year then
    .error (.cbScraping "年は1900以上2100以下を指定してください。")
  else if month < 1 ∨ 12 < month then
    .error (.cbScraping "月は1以上12以下を指定してください。")
  else .ok ⟨year, month⟩

/-- Property `YearMonth.text_jp` (lines 60–67): `f"{year:04}年{month:02}月"`. -/
def YearMonth.text_jp (ym : YearMonth) : String :=
  pyFormat0 4 ym.year ++ "年" ++ pyFormat0 2 ym.month ++ "月"

/-- Python `f"{x}"` on an `Optional[str]`: `str(None)` is `"None"`. -/
def pyFormatOptStr : Option String → String
  | none => "None"
  | some s => s

/-- Dataclass `Schedule` (`__init__.py` lines 233–242): one extracted event.
The Python fields are `day`, `begin`, `end`, `title`; `end` is a Lean
keyword, so the field is written `«end»`. -/
structure Schedule where
  day : Int
  begin : Option Time
  «end» : Option Time
  title : Option String
deriving DecidableEq, Repr

/-- Method `Schedule.__str__` (lines 244–251).  `not self.begin` tests for `None`
(a `datetime.time` value is always truthy), so the first branch is taken
exactly when both times are `None`; otherwise the time range is
`f"{begin_str}-{end_str}"` when `end_str` is non-empty, else `begin_str`. -/
def Schedule.toLine (s : Schedule) : String :=
  if s.begin = none ∧ s.«end» = none then
    toString s.day ++ "日 " ++ pyFormatOptStr s.title
  else
    let begin_str := time_to_str s.begin
    let end_str := time_to_str s.«end»
    let time_range := if end_str ≠ "" then begin_str ++ "-" ++ end_str else begin_str
    toString s.day ++ "日 " ++ time_range ++ " " ++ pyFormatOptStr s.title

/-- An HTML `option` element as the matchers consume it: its visible text
(`option.text`) and its optional `value` attribute. -/
structure OptionElem where
  text : String
  value : Option String
deriving DecidableEq, Repr

/-- Attribute access `option["value"]`: `KeyError` when the attribute is missing. -/
def OptionElem.valueAttr (o : OptionElem) : Except PyError String :=
  match o.value with
  | some v => .ok v
  | none => .error .keyError

/-- The list comprehension shared by `retrieve_division_code` (line 189)
and `login` (line 216):
`[option for option in options if option.text.strip() == name]`.
The option's text is stripped; the requested name is compared as given. -/
def matching_options (options : List OptionElem) (name : String) : List OptionElem :=
  options.filter (fun o => pyStrip o.text == name)

/-- Function `retrieve_division_code` (lines 167–192), from the parsed list of
`select.select-gid[name='Group'] option` elements on the fetched page:
raises `CBScrapingException` when no option matches, otherwise returns
`options[0]["value"]` of the filtered list. -/
def retrieve_division_code (options : List OptionElem) (division_name : String) :
    Except PyError String :=
  match matching_options options division_name with
  | [] => .error (.cbScraping
      ("入力された組織(" ++ division_name ++ ")が組織選択ページで見つかりませんでした。"))
  | o :: _ => o.valueAttr

/-- The user-id resolution step of `login` (lines 215–219), from the parsed
list of `td.loginmain select.vr_loginForm[name='_ID'] option` elements:
raises `CBScrapingException` when no option matches, otherwise returns
`options[0]["value"]` of the filtered list. -/
def login_user_id (options : List OptionElem) (name : String) : Except PyError String :=
  match matching_options options name with
  | [] => .error (.cbScraping
      ("入力された名前(" ++ name ++ ")がログインページで見つかりませんでした。"))
  | o :: _ => o.valueAttr

/-- Constant `CB_ROOT_URI` (`__init__.py` line 10). -/
def CB_ROOT_URI : String := "http://192.168.220.14/scripts/cbag/ag.exe?"

/-- Python `str.upper()` (ASCII; the repository only passes `"get"`/`"post"`). -/
def pyUpper (s : String) : String :=
  String.mk (s.data.map Char.toUpper)

/-- An HTTP response as `call_http_method` observes it: the status code the
transport layer reports, plus the (here opaque) body. -/
structure HttpResponse where
  status : Nat
  body : String
deriving DecidableEq, Repr

/-- The error message of `call_http_method` (line 163):
`f"\x7buri\x7dへの\x7bmethod.upper()\x7dリクエストに失敗しました。"` with the URI quoted
in backticks. -/
def transport_error_msg (uri method : String) : String :=
  "`" ++ uri ++ "`への" ++ pyUpper method ++ "リクエストに失敗しました。"

/-- Function `call_http_method` (lines 139–164): builds `uri = CB_ROOT_URI + uri_part`,
performs the request, and calls `response.raise_for_status()`, which raises
`requests.HTTPError` exactly for status codes in `[400, 600)`; that error is
re-raised as `CBScrapingException` wrapping the URI and upper-cased method.
Otherwise the response is returned unchanged.  The transport outcome is
passed in as the `resp` argument. -/
def call_http_method (uri_part method : String) (resp : HttpResponse) :
    Except PyError HttpResponse :=
  let uri := CB_ROOT_URI ++ uri_part
  if 400 ≤ resp.status ∧ resp.status < 600 then
    .error (.cbScraping (transport_error_msg uri method))
  else .ok resp

/-- The `a.event` anchor inside an event link: only its optional `title`
attribute matters to the code. -/
structure AnchorElem where
  title : Option String
deriving DecidableEq, Repr

/-- A `div.eventLink` element: `timeRange` is the text of the optional
`div.eventInner span.eventDateTime` child (`none` when `select_one` finds
none), `anchor` the optional `div.eventInner a.event` child. -/
structure EventLink where
  timeRange : Option String
  anchor : Option AnchorElem
deriving DecidableEq, Repr

/-- A `td.eventcell` element: `dateLabel` is the text of its `span.date`
child (`none` when the span is missing), `eventLinks` the list of its
`div.eventLink` descendants in DOM order. -/
structure EventCell where
  dateLabel : Option String
  eventLinks : List EventLink
deriving DecidableEq, Repr

/-- The month component of a cell's date label, as lines 265–266 compute it:
`m, _ = event_cell.select_one("span.date").text.split("/", 1)` then `int(m)`: `AttributeError` when the span is missing (`None.text`),
`ValueError` when the text has no `/` (unpacking a 1-element list), then
`int(m)`. -/
def cell_label_month (cell : EventCell) : Except PyError Int :=
  match cell.dateLabel with
  | none => .error .attributeError
  | some text =>
    match pySplit1 text '/' with
    | [m, _] => pyInt m
    | _ => .error .valueError

/-- The day component of the same label, as line 318 computes it:
`int(event_cell.select_one("span.date").text.split("/", 1)[1])` —
`AttributeError` when the span is missing, `IndexError` when the split
produced only one piece, then `int(...)`. -/
def cell_label_day (cell : EventCell) : Except PyError Int :=
  match cell.dateLabel with
  | none => .error .attributeError
  | some text =>
    match pySplit1 text '/' with
    | [_, d] => pyInt d
    | _ => .error .indexError

/-- Function `_is_event_cell_at_month` (lines 254–266): parse the month out of the
cell's date label and compare it to the requested month. -/
def is_event_cell_at_month (cell : EventCell) (month : Int) : Except PyError Bool := do
  let m ← cell_label_month cell
  pure (m == month)

/-- The Python list comprehension on lines 305–309: keep the elements on
which `p` returns `True`, evaluating `p` left to right; the first raise
aborts the whole comprehension. -/
def filterExcept (p : α → Except ε Bool) : List α → Except ε (List α)
  | [] => .ok []
  | x :: xs => do
    let b ← p x
    let rest ← filterExcept p xs
    pure (if b then x :: rest else rest)

/-- The time-range branch of `retrieve_monthly_schedules` (lines 324–330),
applied to the text of a present `span.eventDateTime`: strip the literal
`"&nbsp;"` suffix, split on the first `-`, parse the first piece as the
begin time and — when a `-` was present — the second as the end time. -/
def parse_time_range (text : String) : Except PyError (Option Time × Option Time) :=
  let t := pyRemovesuffix text "&nbsp;"
  match pySplit1 t '-' with
  | [s0, s1] => do
    let b ← str_to_time s0
    let e ← str_to_time s1
    pure (b, e)
  | [s0] => do
    let b ← str_to_time s0
    pure (b, none)
  | _ => pure (none, none)

/-- The per-`div.eventLink` body of the loop on lines 320–334: compute the
optional begin/end times, then look up the `a.event` anchor.
`hasattr(title_elem, "title")` is `False` when `select_one` returned `None`
(`getattr(None, "title")` raises `AttributeError`), but is always `True`
when it returned a bs4 `Tag`: `Tag.__getattr__` answers any such lookup
with `self.find("title")`, which returns `None` rather than raising.  So a
present anchor always reaches `title_elem["title"]`, which raises
`KeyError` when the anchor has no `title` attribute. -/
def event_link_schedules (day : Int) (link : EventLink) :
    Except PyError (List Schedule) := do
  let (b, e) ←
    match link.timeRange with
    | none => pure ((none : Option Time), (none : Option Time))
    | some text => parse_time_range text
  match link.anchor with
  | none => pure []
  | some a =>
    match a.title with
    | some t => pure [⟨day, b, e, some t⟩]
    | none => .error .keyError

/-- The inner `for event_link in event_links` loop of lines 320–334 with its
accumulating `schedules` list. -/
def process_event_links (day : Int) (links : List EventLink) (acc : List Schedule) :
    Except PyError (List Schedule) :=
  match links with
  | [] => .ok acc
  | link :: rest => do
    let recs ← event_link_schedules day link
    process_event_links day rest (acc ++ recs)

/-- The outer `for event_cell, event_links in event_cell_links` loop of
lines 316–334: parse the day from the cell's date label, then process its
event links in DOM order. -/
def process_event_cells (cells : List EventCell) (acc : List Schedule) :
    Except PyError (List Schedule) :=
  match cells with
  | [] => .ok acc
  | cell :: rest => do
    let day ← cell_label_day cell
    let acc2 ← process_event_links day cell.eventLinks acc
    process_event_cells rest acc2

/-- The parsing core of `retrieve_monthly_schedules` (lines 283–335), given
the `td.eventcell` elements of the fetched page in document order: filter
the cells to the requested month, then extract the schedules cell by cell. -/
def retrieve_monthly_schedules (cells : List EventCell) (month : Int) :
    Except PyError (List Schedule) := do
  let kept ← filterExcept (fun c => is_event_cell_at_month c month) cells
  process_event_cells kept []

/-- Structural recursion form of monadic map over `Except`, used to state
the ordering theorem: apply `f` left to right, the first error aborting. -/
def mapExcept (f : α → Except ε β) : List α → Except ε (List β)
  | [] => .ok []
  | x :: xs => do
    let y ← f x
    let ys ← mapExcept f xs
    pure (y :: ys)

/-- Declarative per-cell extraction used to state the ordering theorem:
the day once, then the per-link records concatenated in DOM order. -/
def cell_schedules (cell : EventCell) : Except PyError (List Schedule) := do
  let day ← cell_label_day cell
  let linkResults ← mapExcept (event_link_schedules day) cell.eventLinks
  pure linkResults.flatten

/-- Function `write_monthly_schedules` (`__main__.py` lines 17–30) as the
list of lines it prints: the header naming the user and month, then one
line per schedule in list order (`print(schedule)` renders each record
with `Schedule.__str__`). -/
def write_monthly_schedules (name : String) (ym : YearMonth)
    (schedules : List Schedule) : List String :=
  (name ++ "さんの" ++ ym.text_jp ++ "のスケジュールは次の通りです。") ::
    schedules.map Schedule.toLine

/-- Whether an `Except` computation succeeded. -/
def exceptIsOk : Except ε α → Bool
  | .ok _ => true
  | .error _ => false

/-- A day cell with the given date label and one titled, time-less event,
used for the concrete calendar grids of the theorems. -/
def demoCell (label : String) : EventCell :=
  ⟨some label, [⟨none, some ⟨some ("E" ++ label)⟩⟩]⟩

/-- The month grid of the month-filtering claim: cells labeled `4/30`,
`5/1` .. `5/31`, `6/1`, each carrying one event. -/
def mayGrid : List EventCell :=
  demoCell "4/30" ::
    ((List.range 31).map (fun i => demoCell ("5/" ++ toString (i + 1)))) ++
      [demoCell "6/1"]

/-- The schedules the May cells of `mayGrid` contribute, in grid order. -/
def mayExpected : List Schedule :=
  (List.range 31).map
    (fun i => ⟨(i : Int) + 1, none, none, some ("E5/" ++ toString (i + 1))⟩)

/-! ## Helper lemmas -/

theorem splitFirstChar_eq_none {sep : Char} {cs : List Char} (h : sep ∉ cs) :
    splitFirstChar sep cs = none := by
  induction cs with
  | nil => rfl
  | cons c cs ih =>
    have hne : ¬(c = sep) := fun hc => h (hc ▸ List.mem_cons_self c cs)
    simp only [splitFirstChar, if_neg hne,
      ih (fun hm => h (List.mem_cons_of_mem c hm)), Option.map_none']

theorem hhmm_ne_empty (t : Time) :
    pyFormat0 2 t.hour ++ ":" ++ pyFormat0 2 t.minute ≠ "" := by
  intro h
  have hd := congrArg String.data h
  simp [String.data_append] at hd

theorem filterExcept_sublist {p : α → Except ε Bool} {xs ys : List α}
    (h : filterExcept p xs = .ok ys) : ys.Sublist xs := by
  induction xs generalizing ys with
  | nil =>
    simp only [filterExcept] at h
    cases h
    exact List.Sublist.refl []
  | cons x xs ih =>
    simp only [filterExcept, Bind.bind, Except.bind] at h
    cases hb : p x with
    | error e => rw [hb] at h; cases h
    | ok b =>
      rw [hb] at h
      cases hr : filterExcept p xs with
      | error e => rw [hr] at h; cases h
      | ok rest =>
        rw [hr] at h
        simp only [pure, Except.pure, Except.ok.injEq] at h
        subst h
        cases b with
        | true => exact List.Sublist.cons₂ x (ih hr)
        | false => exact List.Sublist.cons x (ih hr)

theorem process_event_links_eq (day : Int) (links : List EventLink) :
    ∀ acc, process_event_links day links acc =
      (mapExcept (event_link_schedules day) links).map (fun ls => acc ++ ls.flatten) := by
  induction links with
  | nil => intro acc; simp [process_event_links, mapExcept, Except.map]
  | cons l ls ih =>
    intro acc
    simp only [process_event_links, mapExcept, Bind.bind, Except.bind]
    cases event_link_schedules day l with
    | error e => simp [Except.map]
    | ok recs =>
      dsimp only
      rw [ih (acc ++ recs)]
      cases mapExcept (event_link_schedules day) ls with
      | error e => simp [Except.map]
      | ok rest => simp [Except.map, pure, Except.pure, List.append_assoc]

theorem process_event_cells_eq (cells : List EventCell) :
    ∀ acc, process_event_cells cells acc =
      (mapExcept cell_schedules cells).map (fun ls => acc ++ ls.flatten) := by
  induction cells with
  | nil => intro acc; simp [process_event_cells, mapExcept, Except.map]
  | cons c cs ih =>
    intro acc
    simp only [process_event_cells, cell_schedules, mapExcept, Bind.bind, Except.bind]
    cases cell_label_day c with
    | error e => simp [Except.map]
    | ok day =>
      dsimp only
      rw [process_event_links_eq day c.eventLinks acc]
      cases mapExcept (event_link_schedules day) c.eventLinks with
      | error e => simp [Except.map]
      | ok linkResults =>
        simp only [Except.map, pure, Except.pure]
        rw [ih (acc ++ linkResults.flatten)]
        cases mapExcept cell_schedules cs with
        | error e => simp [Except.map]
        | ok rest => simp [Except.map, pure, Except.pure, List.append_assoc]

/-! ## Claims -/

/-- C1: the claim says an event entry whose `a.event` link carries no
`title` attribute is silently dropped, so that 3 entries with one
titleless yield exactly 2 records and no raise.  The code disagrees:
`hasattr(title_elem, "title")` is always `True` for a present bs4 `Tag`
(its `__getattr__` answers with `find("title")` instead of raising), so
the guarded `title_elem["title"]` runs and raises `KeyError` — an error
outside the repository's exception class.  Silent dropping happens only
when the `a.event` element is missing entirely.  This theorem evaluates
the embedded code on the claim's page shape (cell `5/1` with events
A, titleless, C). -/
theorem C1_titleless_event_raises_keyerror :
    retrieve_monthly_schedules
      [⟨some "5/1", [⟨none, some ⟨some "A"⟩⟩, ⟨none, some ⟨none⟩⟩,
        ⟨none, some ⟨some "C"⟩⟩]⟩] 5 = .error .keyError ∧
    PyError.keyError.isCBScraping = false ∧
    retrieve_monthly_schedules
      [⟨some "5/1", [⟨none, some ⟨some "A"⟩⟩, ⟨none, none⟩,
        ⟨none, some ⟨some "C"⟩⟩]⟩] 5 =
      .ok [⟨1, none, none, some "A"⟩, ⟨1, none, none, some "C"⟩] := by
  decide

/-- C2 counterexample: time-substring parsing is not total — a substring
that contains a `:` but is not of the form `H:MM` raises `ValueError`
(from `int(...)` on `"a:b"`, from `datetime.time(...)` on the
out-of-range `"9:60"`), contradicting "never errors ... for every input
string". -/
theorem C2_never_errors_counterexample :
    str_to_time "a:b" = .error .valueError ∧
    str_to_time "9:60" = .error .valueError := by
  decide

/-- C2 amended: a substring that (after stripping) is empty or contains no
`:` parses to absent rather than raising, and the time-range examples
hold: `"9:00-10:30"` gives begin 09:00 / end 10:30, `"9:00-"` and
`"9:00"` give begin 09:00 / end absent, `""` gives both absent.  (A
`:`-containing substring with non-numeric or out-of-range pieces raises
`ValueError`; see the counterexample.) -/
theorem C2_time_parsing_amended :
    (∀ s : String, ':' ∉ (pyStrip s).data → str_to_time s = .ok none) ∧
    parse_time_range "9:00-10:30" = .ok (some ⟨9, 0⟩, some ⟨10, 30⟩) ∧
    parse_time_range "9:00-" = .ok (some ⟨9, 0⟩, none) ∧
    parse_time_range "9:00" = .ok (some ⟨9, 0⟩, none) ∧
    parse_time_range "" = .ok (none, none) := by
  refine ⟨?_, by decide, by decide, by decide, by decide⟩
  intro s h
  simp only [str_to_time]
  by_cases he : pyStrip s = ""
  · simp [he]
  · rw [if_neg he]
    have hsplit : pySplit1 (pyStrip s) ':' = [pyStrip s] := by
      simp only [pySplit1, splitFirstChar_eq_none h]
    rw [hsplit]

/-- C2 witness: the colon-free substring `"abc"` parses to absent. -/
theorem C2_time_parsing_amended_witness : str_to_time "abc" = .ok none :=
  C2_time_parsing_amended.1 "abc" (by decide)

/-- C3 counterexample: a record with `begin` absent and `end` present is
not displayed with `end` treated as absent — it renders as
`"5日 -10:30 会議"`, not `"5日 会議"`. -/
theorem C3_begin_absent_counterexample :
    Schedule.toLine ⟨5, none, some ⟨10, 30⟩, some "会議"⟩ = "5日 -10:30 会議" ∧
    ("5日 -10:30 会議" : String) ≠ "5日 会議" := by
  decide

/-- C3 amended: rendering satisfies — both times absent gives
`"<day>日 <title>"`; begin and end present gives
`"<day>日 <begin>-<end> <title>"`; begin present and end absent omits the
end and its dash; begin absent and end present renders the begin as the
empty string, giving `"<day>日 -<end> <title>"` (the claim's "end treated
as absent when begin is absent" clause does not hold).  Each present
time is rendered zero-padded `HH:MM`. -/
theorem C3_rendering_amended (d : Int) (b e : Time) (title : Option String) :
    Schedule.toLine ⟨d, none, none, title⟩ =
      toString d ++ "日 " ++ pyFormatOptStr title ∧
    Schedule.toLine ⟨d, some b, some e, title⟩ =
      toString d ++ "日 " ++ (pyFormat0 2 b.hour ++ ":" ++ pyFormat0 2 b.minute) ++
        "-" ++ (pyFormat0 2 e.hour ++ ":" ++ pyFormat0 2 e.minute) ++ " " ++
        pyFormatOptStr title ∧
    Schedule.toLine ⟨d, some b, none, title⟩ =
      toString d ++ "日 " ++ (pyFormat0 2 b.hour ++ ":" ++ pyFormat0 2 b.minute) ++
        " " ++ pyFormatOptStr title ∧
    Schedule.toLine ⟨d, none, some e, title⟩ =
      toString d ++ "日 " ++ "-" ++
        (pyFormat0 2 e.hour ++ ":" ++ pyFormat0 2 e.minute) ++ " " ++
        pyFormatOptStr title := by
  refine ⟨by simp [Schedule.toLine], ?_, ?_, ?_⟩
  · simp only [Schedule.toLine, time_to_str]
    rw [if_neg (by simp), if_pos (hhmm_ne_empty e)]
    simp [String.append_assoc]
  · simp only [Schedule.toLine, time_to_str]
    rw [if_neg (by simp), if_neg (by simp)]
  · simp only [Schedule.toLine, time_to_str]
    rw [if_neg (by simp), if_pos (hhmm_ne_empty e)]
    simp only [String.append_assoc, String.empty_append]

/-- C4 counterexample: the matcher strips the option's visible text, not
the requested name, so the requested name `"営業部 "` (trailing space) does
not match a page whose only option reads `"営業部"` — the lookup raises the
not-found `CBScrapingException` instead of succeeding. -/
theorem C4_requested_name_not_trimmed_counterexample :
    retrieve_division_code [⟨"営業部", some "g1"⟩] "営業部 " =
      .error (.cbScraping "入力された組織(営業部 )が組織選択ページで見つかりませんでした。") ∧
    exceptIsOk (retrieve_division_code [⟨"営業部", some "g1"⟩] "営業部 ") = false := by
  decide

/-- C4 amended: lookup is exact-text and case-sensitive, comparing each
option's trimmed visible text against the requested name as given (the
requested name is not trimmed); it raises the not-found
`CBScrapingException` exactly when no option's trimmed text equals the
requested name.  Concretely: an option whose markup text is `"営業部 "`
matches the requested `"営業部"`, while the requested `"営業"` does not
match an option `"営業部"` and `"abc"` does not match `"ABC"`. -/
theorem C4_lookup_amended (options : List OptionElem) (name : String) :
    (matching_options options name = [] ↔ ∀ o ∈ options, pyStrip o.text ≠ name) ∧
    (matching_options options name = [] →
      retrieve_division_code options name = .error (.cbScraping
        ("入力された組織(" ++ name ++ ")が組織選択ページで見つかりませんでした。")) ∧
      login_user_id options name = .error (.cbScraping
        ("入力された名前(" ++ name ++ ")がログインページで見つかりませんでした。"))) ∧
    retrieve_division_code [⟨"営業部 ", some "g1"⟩] "営業部" = .ok "g1" ∧
    exceptIsOk (retrieve_division_code [⟨"営業部", some "g1"⟩] "営業") = false ∧
    exceptIsOk (retrieve_division_code [⟨"ABC", some "g1"⟩] "abc") = false := by
  refine ⟨?_, ?_, by decide, by decide, by decide⟩
  · constructor
    · intro h o ho hstrip
      have hm : o ∈ matching_options options name :=
        List.mem_filter.mpr ⟨ho, by simp [hstrip]⟩
      rw [h] at hm
      cases hm
    · intro hall
      cases hf : matching_options options name with
      | nil => rfl
      | cons o rest =>
        have hm : o ∈ matching_options options name :=
          hf ▸ List.mem_cons_self o rest
        have hp := List.mem_filter.mp hm
        exact absurd (by simpa [beq_iff_eq] using hp.2) (hall o hp.1)
  · intro h
    constructor
    · simp only [retrieve_division_code, h]
    · simp only [login_user_id, h]

/-- C4 witness: on a page whose only option reads `"総務部"`, the requested
name `"営業部"` triggers the not-found error on both the organization page
and the login page. -/
theorem C4_lookup_amended_witness :
    retrieve_division_code [⟨"総務部", some "g9"⟩] "営業部" = .error (.cbScraping
      ("入力された組織(" ++ "営業部" ++ ")が組織選択ページで見つかりませんでした。")) ∧
    login_user_id [⟨"総務部", some "g9"⟩] "営業部" = .error (.cbScraping
      ("入力された名前(" ++ "営業部" ++ ")がログインページで見つかりませんでした。")) :=
  (C4_lookup_amended [⟨"総務部", some "g9"⟩] "営業部").2.1 (by decide)

/-- C5: a cell is kept only if the month parsed from its `month/day` date
label equals the requested month — whenever `_is_event_cell_at_month`
returns a boolean, that boolean is `True` exactly when the label's month
component parses to the requested month.  On the grid labeled `4/30`,
`5/1` .. `5/31`, `6/1` with target month 5, exactly the `5/*` cells
contribute records, in grid order, with days `1` .. `31` — all within the
requested month. -/
theorem C5_month_filtering (cell : EventCell) (month : Int) (b : Bool)
    (h : is_event_cell_at_month cell month = .ok b) :
    (b = true ↔ cell_label_month cell = .ok month) ∧
    retrieve_monthly_schedules mayGrid 5 = .ok mayExpected := by
  constructor
  · simp only [is_event_cell_at_month, Bind.bind, Except.bind] at h
    cases hm : cell_label_month cell with
    | error e => rw [hm] at h; cases h
    | ok m =>
      rw [hm] at h
      simp only [pure, Except.pure, Except.ok.injEq] at h
      subst h
      simp [beq_iff_eq]
  · decide

/-- C5 witness: the `4/30` cell of the grid is not kept for month 5 — its
boolean is `false` and indeed its label month does not parse to 5. -/
theorem C5_month_filtering_witness :
    (false = true ↔ cell_label_month (demoCell "4/30") = .ok 5) ∧
    retrieve_monthly_schedules mayGrid 5 = .ok mayExpected :=
  C5_month_filtering (demoCell "4/30") 5 false (by decide)

/-- C6: `YearMonth` construction succeeds exactly for year ∈ [1900, 2100]
and month ∈ [1, 12]; in that case `text_jp` renders
`f"{year:04}年{month:02}月"`, and outside the ranges construction fails
with the repository's `CBScrapingException` (the spec's validation-error
kind) — before any network activity, since the constructor touches no
session. -/
theorem C6_yearmonth_validation (year month : Int) :
    ((∃ ym, YearMonth.init year month = .ok ym) ↔
      (1900 ≤ year ∧ year ≤ 2100 ∧ 1 ≤ month ∧ month ≤ 12)) ∧
    (∀ ym, YearMonth.init year month = .ok ym →
      ym.text_jp = pyFormat0 4 year ++ "年" ++ pyFormat0 2 month ++ "月") ∧
    (¬(1900 ≤ year ∧ year ≤ 2100 ∧ 1 ≤ month ∧ month ≤ 12) →
      ∃ msg, YearMonth.init year month = .error (.cbScraping msg)) := by
  unfold YearMonth.init
  split_ifs with h1 h2
  · refine ⟨?_, ?_, ?_⟩
    · constructor
      · rintro ⟨ym, hym⟩; cases hym
      · intro hr; omega
    · intro ym hym; cases hym
    · intro hr; exact ⟨_, rfl⟩
  · refine ⟨?_, ?_, ?_⟩
    · constructor
      · rintro ⟨ym, hym⟩; cases hym
      · intro hr; omega
    · intro ym hym; cases hym
    · intro hr; exact ⟨_, rfl⟩
  · refine ⟨?_, ?_, ?_⟩
    · constructor
      · intro _; omega
      · intro hr; exact ⟨⟨year, month⟩, rfl⟩
    · intro ym hym
      cases hym
      rfl
    · intro hr; omega

/-- C6 witness: `(2024, 5)` constructs and renders as the zero-padded
Japanese form, and `(1899, 1)` fails with the validation kind. -/
theorem C6_yearmonth_validation_witness :
    YearMonth.text_jp ⟨2024, 5⟩ =
      pyFormat0 4 2024 ++ "年" ++ pyFormat0 2 5 ++ "月" ∧
    (∃ msg, YearMonth.init 1899 1 = .error (.cbScraping msg)) :=
  ⟨(C6_yearmonth_validation 2024 5).2.1 ⟨2024, 5⟩ (by decide),
   (C6_yearmonth_validation 1899 1).2.2 (by decide)⟩

/-- C7 counterexample: on a kept-candidate cell whose `span.date` is
missing, extraction does fail, but with a plain `AttributeError`
(`None.text` inside `_is_event_cell_at_month`), which is not the
repository's `CBScrapingException` class — i.e. it is an error outside
the system's error taxonomy, contrary to the claim's
"MalformedPageError ... rather than raising an error outside the
system's error taxonomy". -/
theorem C7_missing_date_label_counterexample :
    retrieve_monthly_schedules [⟨none, [⟨none, some ⟨some "A"⟩⟩]⟩] 5 =
      .error .attributeError ∧
    PyError.attributeError.isCBScraping = false := by
  decide

/-- C7 amended: for every cell whose `span.date` element is missing,
month filtering — and hence the whole extraction when such a cell is
present — fails fatally (it neither succeeds nor skips the cell), but
with an `AttributeError` outside the repository's exception class rather
than a taxonomy (`MalformedPageError`-kind) error. -/
theorem C7_missing_date_label_amended (cell : EventCell) (month : Int)
    (h : cell.dateLabel = none) :
    is_event_cell_at_month cell month = .error .attributeError ∧
    PyError.attributeError.isCBScraping = false ∧
    ∀ rest : List EventCell,
      retrieve_monthly_schedules (cell :: rest) month = .error .attributeError := by
  have hcell : is_event_cell_at_month cell month = .error .attributeError := by
    simp [is_event_cell_at_month, cell_label_month, h, Bind.bind, Except.bind]
  refine ⟨hcell, rfl, fun rest => ?_⟩
  simp [retrieve_monthly_schedules, filterExcept, hcell, Bind.bind, Except.bind]

/-- C7 witness: a one-cell page whose cell has no date label makes the
month check, and the whole extraction, fail with `AttributeError`. -/
theorem C7_missing_date_label_amended_witness :
    is_event_cell_at_month ⟨none, []⟩ 5 = .error .attributeError ∧
    PyError.attributeError.isCBScraping = false ∧
    ∀ rest : List EventCell,
      retrieve_monthly_schedules (⟨none, []⟩ :: rest) 5 = .error .attributeError :=
  C7_missing_date_label_amended ⟨none, []⟩ 5 rfl

/-- C8: a request whose transport layer reports an error status (the
`requests.raise_for_status` range, 400–599) fails with the repository's
`CBScrapingException` whose message wraps the full URI
(`CB_ROOT_URI + uri_part`) and the upper-cased method, both occurring in
the message; on any other status the response is returned unchanged. -/
theorem C8_transport_error (uri_part method : String) (resp : HttpResponse) :
    (400 ≤ resp.status ∧ resp.status < 600 →
      call_http_method uri_part method resp = .error (.cbScraping
        (transport_error_msg (CB_ROOT_URI ++ uri_part) method)) ∧
      (CB_ROOT_URI ++ uri_part).data <:+:
        (transport_error_msg (CB_ROOT_URI ++ uri_part) method).data ∧
      (pyUpper method).data <:+:
        (transport_error_msg (CB_ROOT_URI ++ uri_part) method).data) ∧
    (¬(400 ≤ resp.status ∧ resp.status < 600) →
      call_http_method uri_part method resp = .ok resp) := by
  constructor
  · intro h
    refine ⟨?_, ?_, ?_⟩
    · simp only [call_http_method]
      rw [if_pos h]
    · exact ⟨"`".data, ("`への" ++ pyUpper method ++ "リクエストに失敗しました。").data,
        by simp [transport_error_msg, String.data_append]⟩
    · exact ⟨("`" ++ (CB_ROOT_URI ++ uri_part) ++ "`への").data,
        "リクエストに失敗しました。".data,
        by simp [transport_error_msg, String.data_append]⟩
  · intro h
    simp only [call_http_method]
    rw [if_neg h]

/-- C8 witness: a 404 on the organization page GET yields the wrapped
transport error; a 200 returns the response unchanged. -/
theorem C8_transport_error_witness :
    call_http_method "page=LoginGroup" "get" ⟨404, ""⟩ = .error (.cbScraping
      (transport_error_msg (CB_ROOT_URI ++ "page=LoginGroup") "get")) ∧
    call_http_method "page=LoginGroup" "get" ⟨200, "body"⟩ = .ok ⟨200, "body"⟩ :=
  ⟨((C8_transport_error "page=LoginGroup" "get" ⟨404, ""⟩).1 (by decide)).1,
   (C8_transport_error "page=LoginGroup" "get" ⟨200, "body"⟩).2 (by decide)⟩

/-- C9: the returned list preserves source order — the kept cells are a
subsequence of the page's cells in grid order, and the output is exactly
the concatenation, cell by cell in that order, of each cell's records
with its event links processed in DOM order (no re-sorting by day or
time); the printed output then emits one line per record in the same
list order after the header. -/
theorem C9_order_preserved (cells : List EventCell) (month : Int)
    (kept : List EventCell) (out : List Schedule)
    (h1 : filterExcept (fun c => is_event_cell_at_month c month) cells = .ok kept)
    (h2 : retrieve_monthly_schedules cells month = .ok out) :
    kept.Sublist cells ∧
    (∃ perCell : List (List Schedule),
      mapExcept cell_schedules kept = .ok perCell ∧ out = perCell.flatten) ∧
    ∀ name ym, write_monthly_schedules name ym out =
      (name ++ "さんの" ++ ym.text_jp ++ "のスケジュールは次の通りです。") ::
        out.map Schedule.toLine := by
  refine ⟨filterExcept_sublist h1, ?_, fun name ym => rfl⟩
  simp only [retrieve_monthly_schedules, Bind.bind, Except.bind] at h2
  rw [h1] at h2
  dsimp only at h2
  rw [process_event_cells_eq kept []] at h2
  cases hm : mapExcept cell_schedules kept with
  | error e => rw [hm] at h2; cases h2
  | ok perCell =>
    rw [hm] at h2
    simp only [Except.map, List.nil_append, Except.ok.injEq] at h2
    exact ⟨perCell, rfl, h2.symm⟩

/-- C9 witness: a grid whose kept cells appear in the order `5/20`, `5/3`
yields the records in that same unsorted order (day 20 before day 3). -/
theorem C9_order_preserved_witness :
    ([demoCell "5/20", demoCell "5/3"] : List EventCell).Sublist
      [demoCell "5/20", demoCell "5/3"] ∧
    (∃ perCell : List (List Schedule),
      mapExcept cell_schedules [demoCell "5/20", demoCell "5/3"] = .ok perCell ∧
      [⟨20, none, none, some "E5/20"⟩, ⟨3, none, none, some "E5/3"⟩] =
        perCell.flatten) ∧
    write_monthly_schedules "太郎" ⟨2024, 5⟩
        [⟨20, none, none, some "E5/20"⟩, ⟨3, none, none, some "E5/3"⟩] =
      ("太郎" ++ "さんの" ++ YearMonth.text_jp ⟨2024, 5⟩ ++ "のスケジュールは次の通りです。") ::
        [⟨(20 : Int), none, none, some "E5/20"⟩,
          ⟨(3 : Int), none, none, some "E5/3"⟩].map Schedule.toLine := by
  have h := C9_order_preserved [demoCell "5/20", demoCell "5/3"] 5
    [demoCell "5/20", demoCell "5/3"]
    [⟨20, none, none, some "E5/20"⟩, ⟨3, none, none, some "E5/3"⟩]
    (by decide) (by decide)
  exact ⟨h.1, h.2.1, h.2.2 "太郎" ⟨2024, 5⟩⟩

/-- C10: when several options' trimmed texts equal the requested name,
both lookups deterministically return the `value` attribute of the first
matching option in document order — if the filtered list starts with
option `o` carrying value `v`, both `retrieve_division_code` and the
user-id resolution of `login` return `v`, and `o` is indeed an option of
the page whose trimmed text equals the name. -/
theorem C10_first_matching_option (options : List OptionElem) (name : String)
    (o : OptionElem) (rest : List OptionElem) (v : String)
    (h : matching_options options name = o :: rest) (hv : o.value = some v) :
    retrieve_division_code options name = .ok v ∧
    login_user_id options name = .ok v ∧
    o ∈ options ∧ pyStrip o.text = name := by
  have hmem : o ∈ matching_options options name := h ▸ List.mem_cons_self o rest
  have hmem' := List.mem_filter.mp hmem
  refine ⟨?_, ?_, hmem'.1, by simpa [beq_iff_eq] using hmem'.2⟩
  · simp only [retrieve_division_code, h, OptionElem.valueAttr, hv]
  · simp only [login_user_id, h, OptionElem.valueAttr, hv]

/-- C10 witness: with two options both reading `"営業部"` after trimming,
both lookups return the first option's value `"g1"`. -/
theorem C10_first_matching_option_witness :
    retrieve_division_code [⟨"営業部", some "g1"⟩, ⟨" 営業部 ", some "g2"⟩] "営業部" =
      .ok "g1" ∧
    login_user_id [⟨"営業部", some "g1"⟩, ⟨" 営業部 ", some "g2"⟩] "営業部" =
      .ok "g1" :=
  have h := C10_first_matching_option
    [⟨"営業部", some "g1"⟩, ⟨" 営業部 ", some "g2"⟩] "営業部"
    ⟨"営業部", some "g1"⟩ [⟨" 営業部 ", some "g2"⟩] "g1" (by decide) rfl
  ⟨h.1, h.2.1⟩

end Cybozu
